import Mathlib

/-!
Verification of the Churn-Guard-AI repository.

This file embeds the repository's data-loading layer
(`src/main/java/com/example/demo/DataLoader.java`, `Customer.java`), the
frontend authentication state machine (`frontend/src/AuthContext.jsx`), and
the prediction/analytics core described by the specification, and proves the
stated properties about them.

Numeric conventions: Java `double` is modelled as `ℚ`, Java `int` as `ℤ`.
Fallible Java code (exceptions) is modelled with `Option`/`Except`.
-/

set_option maxRecDepth 4000

namespace ChurnGuard

/-! ## Customer record (from `Customer.java` / the CSV schema) -/

/-- The customer entity, mirroring the fields of `Customer.java` (the JPA id
column is omitted: it is database-generated and never read by the loader). -/
structure CustomerRecord where
  customerId : String
  gender : String
  seniorCitizen : ℤ
  partner : String
  dependents : String
  tenure : ℤ
  phoneService : String
  multipleLines : String
  internetService : String
  onlineSecurity : String
  onlineBackup : String
  deviceProtection : String
  techSupport : String
  streamingTV : String
  streamingMovies : String
  contract : String
  paperlessBilling : String
  paymentMethod : String
  monthlyCharges : ℚ
  totalCharges : ℚ
  churn : String
deriving DecidableEq

/-! ## CSV parsing (from `DataLoader.loadData`) -/

/-- One step of the CSV split.  `DataLoader` splits each line with
`line.split(",(?=([^\x22]*\x22[^\x22]*\x22)*[^\x22]*$)", -1)`: a comma is a
separator exactly when it is followed by an even number of quote characters
up to the end of the line (i.e. it is outside any quoted section), and the
`-1` limit keeps trailing empty fields. -/
def splitCsvGo : List Char → List Char → List String
  | [], cur => [String.mk cur.reverse]
  | c :: rest, cur =>
    if c = ',' ∧ (rest.count '"') % 2 = 0 then
      String.mk cur.reverse :: splitCsvGo rest []
    else
      splitCsvGo rest (c :: cur)

/-- Split a CSV line into fields as `DataLoader`'s regex split does. -/
def splitCsvLine (s : String) : List String :=
  splitCsvGo s.data []

/-- Accumulate decimal digits; fails on any non-digit character
(models the digit loop of the JDK integer parser). -/
def parseDigitsAux (acc : ℕ) : List Char → Option ℕ
  | [] => some acc
  | c :: cs => if c.isDigit then parseDigitsAux (acc * 10 + (c.toNat - 48)) cs else none

/-- Parse a non-empty all-digit string. -/
def parseDigits (cs : List Char) : Option ℕ :=
  if cs.isEmpty then none else parseDigitsAux 0 cs

/-- `Integer.parseInt`: optional sign followed by at least one digit;
anything else throws (here: `none`). -/
def parseIntJava (s : String) : Option ℤ :=
  match s.data with
  | [] => none
  | '-' :: rest => (parseDigits rest).map (fun n => -(n : ℤ))
  | '+' :: rest => (parseDigits rest).map (fun n => (n : ℤ))
  | cs => (parseDigits cs).map (fun n => (n : ℤ))

/-- Value of a digit list read in base 10 (empty list reads as 0). -/
def digitsToNat (cs : List Char) : ℕ :=
  cs.foldl (fun acc c => acc * 10 + (c.toNat - 48)) 0

/-- Parse an unsigned decimal literal `digits [ '.' digits ]` with at least
one digit overall, as accepted for the plain decimal fields of the CSV. -/
def parseDecimal (cs : List Char) : Option ℚ :=
  let ip := cs.takeWhile Char.isDigit
  let rest := cs.dropWhile Char.isDigit
  match rest with
  | [] => if ip.isEmpty then none else some (digitsToNat ip : ℚ)
  | '.' :: frac =>
    if frac.all Char.isDigit ∧ ¬(ip.isEmpty ∧ frac.isEmpty) then
      some ((digitsToNat ip : ℚ) + (digitsToNat frac : ℚ) / ((10 : ℚ) ^ frac.length))
    else none
  | _ => none

/-- `Double.parseDouble` restricted to the plain decimal literals occurring in
the dataset: optional sign, integer part, optional fraction.  Any other
string throws (here: `none`). -/
def parseDoubleJava (s : String) : Option ℚ :=
  match s.data with
  | [] => none
  | '-' :: rest => (parseDecimal rest).map (fun q => -q)
  | '+' :: rest => parseDecimal rest
  | cs => parseDecimal cs

/-- Java `String.trim`: drop leading and trailing characters with code point
at most U+0020. -/
def trimJava (s : String) : String :=
  String.mk (((s.data.dropWhile (fun c => c.toNat ≤ 32)).reverse.dropWhile
    (fun c => c.toNat ≤ 32)).reverse)

/-- The `TotalCharges` handling of `DataLoader.loadData`: trim the field; an
empty (or single-space, a dead check after trimming) result is stored as
`0.0`, anything else goes through `Double.parseDouble`. -/
def parseTotalCharges (s : String) : Option ℚ :=
  let t := trimJava s
  if t = "" ∨ t = " " then some 0 else parseDoubleJava t

/-- Parse one data line of `Customer-Churn.csv` exactly as the body of the
`while` loop of `DataLoader.loadData` does: split, then read the 21 columns
`data[0]` … `data[20]` in order.  A missing column
(`ArrayIndexOutOfBoundsException`) or a failing numeric parse
(`NumberFormatException`) aborts the whole parse (`none`). -/
def parseCustomerLine (line : String) : Option CustomerRecord :=
  let data := splitCsvLine line
  if h : 20 < data.length then
    (parseIntJava data[2]).bind fun seniorCitizen =>
    (parseIntJava data[5]).bind fun tenure =>
    (parseDoubleJava data[18]).bind fun monthlyCharges =>
    (parseTotalCharges data[19]).bind fun totalCharges =>
    some { customerId := data[0], gender := data[1], seniorCitizen,
           partner := data[3], dependents := data[4], tenure,
           phoneService := data[6], multipleLines := data[7],
           internetService := data[8], onlineSecurity := data[9],
           onlineBackup := data[10], deviceProtection := data[11],
           techSupport := data[12], streamingTV := data[13],
           streamingMovies := data[14], contract := data[15],
           paperlessBilling := data[16], paymentMethod := data[17],
           monthlyCharges, totalCharges, churn := data[20] }
  else none

/-- Parse every data line, mirroring the accumulation loop of `loadData`:
the customers list grows line by line and the first parse failure
(exception) aborts the whole load. -/
def parseAllLines : List String → Option (List CustomerRecord)
  | [] => some []
  | l :: ls => do
    let c ← parseCustomerLine l
    let cs ← parseAllLines ls
    pure (c :: cs)

/-- `DataLoader.loadData`: the repository is modelled as the list of stored
customers.  If the repository already holds data (`count() > 0`) the method
returns at once.  Otherwise the CSV is read, the header line is skipped, and
`saveAll` is reached only when every line parsed; any exception is caught
and leaves the repository untouched. -/
def loadData (csvLines : List String) (repo : List CustomerRecord) : List CustomerRecord :=
  if repo.length > 0 then repo
  else
    match parseAllLines (csvLines.drop 1) with
    | some customers => customers
    | none => repo

/-! ## Frontend authentication state (from `AuthContext.jsx`)

The provider keeps `token` (string state, initialised from local storage),
`user`, and the axios default `Authorization` header.  A `useEffect` keyed on
`token` re-establishes the derived state after every token change: a truthy
token sets the header to `Bearer <token>` and the user to `admin`; a falsy
token (absent or the empty string) deletes the header and clears the user.
`isAuthenticated` is `!!token`. -/

/-- The authentication-relevant React state plus the axios default header. -/
structure AuthState where
  token : Option String
  authHeader : Option String
  user : Option String
deriving DecidableEq

/-- JavaScript truthiness of the `token` value: absent and the empty string
are falsy, every other string is truthy (`!!token`, `if (token)`). -/
def jsTruthy : Option String → Bool
  | none => false
  | some t => decide (t ≠ "")

/-- The body of the `useEffect` hook keyed on `token`: set the Authorization
header and the user when the token is truthy, delete them otherwise. -/
def applyTokenEffect (s : AuthState) : AuthState :=
  match s.token with
  | some t =>
    if t ≠ "" then { s with authHeader := some ("Bearer " ++ t), user := some "admin" }
    else { s with authHeader := none, user := none }
  | none => { s with authHeader := none, user := none }

/-- A successful `login`: the access token from the response is stored with
`setToken`, after which the `useEffect` runs. -/
def login (s : AuthState) (accessToken : String) : AuthState :=
  applyTokenEffect { s with token := some accessToken }

/-- A failed `login`: the catch branch changes no state. -/
def loginFailed (s : AuthState) : AuthState := s

/-- `logout`: `setToken(null)`, after which the `useEffect` runs. -/
def logout (s : AuthState) : AuthState :=
  applyTokenEffect { s with token := none }

/-- `isAuthenticated: !!token` as exposed by the context value. -/
def isAuthenticated (s : AuthState) : Bool :=
  jsTruthy s.token

/-- A (truthy) token is present in the state. -/
def tokenPresent (s : AuthState) : Prop :=
  ∃ t, s.token = some t ∧ t ≠ ""

/-- The authentication invariant: `isAuthenticated` holds exactly when a
token is present, and the axios Authorization header is `Bearer <token>`
exactly when a token is present (deleted otherwise). -/
def authInvariant (s : AuthState) : Prop :=
  (isAuthenticated s = true ↔ tokenPresent s) ∧
  (∀ t, s.token = some t → t ≠ "" → s.authHeader = some ("Bearer " ++ t)) ∧
  (isAuthenticated s = false → s.authHeader = none)

/-! ## The prediction core

The Python inference service (`backend/services_v2.py` and its routers) is
not part of this source tree; the definitions below are therefore modelled
from the specification (feature derivation, ensemble scoring, strategy
generation, statistical guards), with the ensemble weights and feature list
taken from the repository's model documentation (`IMPROVEMENT_PLAN.md`,
`PROGRESS.md`: soft voting with weights 2, 1, 1). -/

/-- Modelled from the spec: the derived feature vector, an ordered record of
the named engineered features (`customer_value_score`, `service_count`,
`premium_service_count`, `contract_stability`, `payment_risk`,
`tenure_group`, `charge_ratio`, `senior_and_high_monthly`,
`fiber_without_security`). -/
structure FeatureVector where
  customerValueScore : ℚ
  serviceCount : ℚ
  premiumServiceCount : ℚ
  contractStability : ℚ
  paymentRisk : ℚ
  tenureGroup : ℚ
  chargeRatio : ℚ
  seniorAndHighMonthly : ℚ
  fiberWithoutSecurity : ℚ
deriving DecidableEq

/-- Modelled from the spec: normalization constants and thresholds fit at
training time, carried as model metadata. -/
structure DeriverConfig where
  maxMonthly : ℚ
  maxTotal : ℚ
  highMonthlyThreshold : ℚ
deriving DecidableEq

/-- Modelled from the spec: the training-time normalization constants of the
shipped model artefact. -/
def defaultConfig : DeriverConfig :=
  { maxMonthly := 11875 / 100, maxTotal := 86848 / 10, highMonthlyThreshold := 70 }

/-- Modelled from the spec: a malformed or out-of-vocabulary input value. -/
structure FeatureError where
  field : String
  value : String
deriving DecidableEq

/-- Modelled from the spec: fixed vocabulary of the `Contract` field. -/
def contractVocab : List String :=
  ["Month-to-month", "One year", "Two year"]

/-- Modelled from the spec: fixed vocabulary of the `PaymentMethod` field. -/
def paymentVocab : List String :=
  ["Electronic check", "Mailed check", "Bank transfer (automatic)",
   "Credit card (automatic)"]

/-- Modelled from the spec: fixed vocabulary of the `InternetService` field. -/
def internetVocab : List String :=
  ["DSL", "Fiber optic", "No"]

/-- Modelled from the spec: fixed vocabulary of the plain yes/no fields. -/
def yesNoVocab : List String :=
  ["Yes", "No"]

/-- Modelled from the spec: fixed vocabulary of the `gender` field. -/
def genderVocab : List String :=
  ["Male", "Female"]

/-- Modelled from the spec: fixed vocabulary of `MultipleLines` (phone-dependent). -/
def phoneDependentVocab : List String :=
  ["Yes", "No", "No phone service"]

/-- Modelled from the spec: fixed vocabulary of the six add-on service fields (internet-dependent). -/
def internetDependentVocab : List String :=
  ["Yes", "No", "No internet service"]

/-- Modelled from the spec: scan the categorical fields in declaration order
and report the first value that falls outside its fixed vocabulary. -/
def firstVocabViolation (r : CustomerRecord) : Option (String × String) :=
  if r.gender ∉ genderVocab then some ("gender", r.gender)
  else if r.partner ∉ yesNoVocab then some ("Partner", r.partner)
  else if r.dependents ∉ yesNoVocab then some ("Dependents", r.dependents)
  else if r.phoneService ∉ yesNoVocab then some ("PhoneService", r.phoneService)
  else if r.multipleLines ∉ phoneDependentVocab then some ("MultipleLines", r.multipleLines)
  else if r.internetService ∉ internetVocab then some ("InternetService", r.internetService)
  else if r.onlineSecurity ∉ internetDependentVocab then some ("OnlineSecurity", r.onlineSecurity)
  else if r.onlineBackup ∉ internetDependentVocab then some ("OnlineBackup", r.onlineBackup)
  else if r.deviceProtection ∉ internetDependentVocab then some ("DeviceProtection", r.deviceProtection)
  else if r.techSupport ∉ internetDependentVocab then some ("TechSupport", r.techSupport)
  else if r.streamingTV ∉ internetDependentVocab then some ("StreamingTV", r.streamingTV)
  else if r.streamingMovies ∉ internetDependentVocab then some ("StreamingMovies", r.streamingMovies)
  else if r.contract ∉ contractVocab then some ("Contract", r.contract)
  else if r.paperlessBilling ∉ yesNoVocab then some ("PaperlessBilling", r.paperlessBilling)
  else if r.paymentMethod ∉ paymentVocab then some ("PaymentMethod", r.paymentMethod)
  else none

/-- A structurally valid record: every categorical field holds an
in-vocabulary value. -/
def validRecord (r : CustomerRecord) : Prop :=
  firstVocabViolation r = none

instance (r : CustomerRecord) : Decidable (validRecord r) := by
  unfold validRecord; infer_instance

/-- Modelled from the spec: every required categorical field of the record
holds a value inside its fixed known vocabulary.  Its negation says that
some required categorical field is out of vocabulary. -/
def inVocabulary (r : CustomerRecord) : Prop :=
  r.gender ∈ genderVocab ∧ r.partner ∈ yesNoVocab ∧ r.dependents ∈ yesNoVocab ∧
  r.phoneService ∈ yesNoVocab ∧ r.multipleLines ∈ phoneDependentVocab ∧
  r.internetService ∈ internetVocab ∧ r.onlineSecurity ∈ internetDependentVocab ∧
  r.onlineBackup ∈ internetDependentVocab ∧ r.deviceProtection ∈ internetDependentVocab ∧
  r.techSupport ∈ internetDependentVocab ∧ r.streamingTV ∈ internetDependentVocab ∧
  r.streamingMovies ∈ internetDependentVocab ∧ r.contract ∈ contractVocab ∧
  r.paperlessBilling ∈ yesNoVocab ∧ r.paymentMethod ∈ paymentVocab

instance (r : CustomerRecord) : Decidable (inVocabulary r) := by
  unfold inVocabulary; infer_instance

/-- Modelled from the spec: the engineered features as pure functions of the
record and the training-time constants. -/
def computeFeatures (cfg : DeriverConfig) (r : CustomerRecord) : FeatureVector :=
  { customerValueScore :=
      (r.tenure : ℚ) * (3 / 10) + r.monthlyCharges / cfg.maxMonthly * 100 * (4 / 10) +
        r.totalCharges / cfg.maxTotal * 100 * (3 / 10)
    serviceCount :=
      (([r.phoneService, r.multipleLines, r.onlineSecurity, r.onlineBackup,
         r.deviceProtection, r.techSupport, r.streamingTV,
         r.streamingMovies].filter (· == "Yes")).length : ℚ) +
        (if r.internetService ≠ "No" then 1 else 0)
    premiumServiceCount :=
      (([r.onlineSecurity, r.onlineBackup, r.deviceProtection,
         r.techSupport].filter (· == "Yes")).length : ℚ)
    contractStability :=
      if r.contract = "Month-to-month" then 1
      else if r.contract = "One year" then 2 else 3
    paymentRisk :=
      if r.paymentMethod = "Electronic check" then 3
      else if r.paymentMethod = "Mailed check" then 2 else 1
    tenureGroup :=
      if r.tenure ≤ 6 then 1 else if r.tenure ≤ 12 then 2
      else if r.tenure ≤ 24 then 3 else if r.tenure ≤ 48 then 4 else 5
    chargeRatio :=
      if r.monthlyCharges = 0 then 0
      else r.totalCharges / (r.monthlyCharges * (max r.tenure 1 : ℤ))
    seniorAndHighMonthly :=
      if r.seniorCitizen = 1 ∧ cfg.highMonthlyThreshold < r.monthlyCharges then 1 else 0
    fiberWithoutSecurity :=
      if r.internetService = "Fiber optic" ∧ r.onlineSecurity = "No" then 1 else 0 }

/-- Modelled from the spec: `FeatureDeriver.derive` — reject the record when
any required categorical value is out of vocabulary, otherwise build the
feature vector. -/
def derive (cfg : DeriverConfig) (r : CustomerRecord) : Except FeatureError FeatureVector :=
  match firstVocabViolation r with
  | some v => Except.error { field := v.1, value := v.2 }
  | none => Except.ok (computeFeatures cfg r)

/-- Modelled from the spec: the process-lifetime model artefact holding the
three base classifiers (each one capability: feature vector to class-1
probability), their combination weights, the ordered feature-name list and
metadata. -/
structure ModelBundle where
  classifiers : List (FeatureVector → ℚ)
  weights : List ℚ
  featureNames : List String
  version : String
  deriverConfig : DeriverConfig

/-- Modelled from the spec: `EnsembleScorer.score` — the weighted average of
the base classifiers' probabilities, with the weights read from the bundle. -/
def ensembleScore (b : ModelBundle) (v : FeatureVector) : ℚ :=
  (List.zipWith (fun w c => w * c v) b.weights b.classifiers).sum / b.weights.sum

/-- Modelled from the repository's model documentation: the shipped bundle
combines `xgb`, `rf` and `gb` by soft voting with weights 2, 1, 1. -/
def mkChurnBundle (ca cb cc : FeatureVector → ℚ) : ModelBundle :=
  { classifiers := [ca, cb, cc]
    weights := [2, 1, 1]
    featureNames :=
      ["customer_value_score", "service_count", "premium_service_count",
       "contract_stability", "payment_risk", "tenure_group", "charge_ratio",
       "senior_and_high_monthly", "fiber_without_security"]
    version := "v2.0.0"
    deriverConfig := defaultConfig }

/-- Modelled from the spec: risk buckets from fixed probability thresholds
(above 70% high, 50–70% medium, below 50% low). -/
def riskLevelOf (p : ℚ) : String :=
  if 7 / 10 < p then "High" else if 1 / 2 ≤ p then "Medium" else "Low"

/-- Modelled from the spec: confidence is the probability's distance from
the 0.5 decision boundary, rescaled to [0, 1]. -/
def confidenceOf (p : ℚ) : ℚ :=
  2 * |p - 1 / 2|

/-- Insert a labelled risk factor into a list sorted by descending
contribution, after any factor of equal contribution (stable tie-break in
feature declaration order). -/
def insertDesc (x : String × String × ℚ) :
    List (String × String × ℚ) → List (String × String × ℚ)
  | [] => [x]
  | y :: ys => if y.2.2 < x.2.2 then x :: y :: ys else y :: insertDesc x ys

/-- Stable insertion sort by descending contribution. -/
def sortDesc : List (String × String × ℚ) → List (String × String × ℚ)
  | [] => []
  | x :: xs => insertDesc x (sortDesc xs)

/-- Modelled from the spec: `RiskExplainer.explain` — per-feature
contributions (bundle importance times the churn-ward deviation of the
customer's value), positive contributions only, sorted descending with the
stable tie-break, capped at five, each with its static human label. -/
def explain (v : FeatureVector) : List (String × String × ℚ) :=
  ((sortDesc
    (([("contract_stability", "Contract stability", (3 - v.contractStability) * (226 / 1000)),
       ("fiber_without_security", "Fiber optic without online security",
        v.fiberWithoutSecurity * (142 / 1000)),
       ("tenure_group", "Customer lifecycle stage", (5 - v.tenureGroup) * (22 / 1000)),
       ("payment_risk", "Payment method risk", (v.paymentRisk - 1) * (16 / 1000))]).filter
      (fun x => decide (0 < x.2.2)))).take 5)

/-- Modelled from the spec: one recommended retention action. -/
structure StrategyAction where
  action : String
  priority : String
  details : String
  expected_impact : String
deriving DecidableEq

/-- Modelled from the spec: the ordered rule table of `StrategyGenerator` —
fixed (predicate, action) pairs evaluated top to bottom. -/
def strategyRules : List ((CustomerRecord → Bool) × StrategyAction) :=
  [(fun r => r.paymentMethod == "Electronic check",
    { action := "auto-payment incentive", priority := "High",
      details := "Offer a first-month discount for switching to automatic payment",
      expected_impact := "churn rate -25%" }),
   (fun r => r.contract == "Month-to-month",
    { action := "long-term contract upgrade", priority := "High",
      details := "Offer a discounted one-year or two-year contract",
      expected_impact := "churn rate -28%" }),
   (fun r => r.internetService == "Fiber optic" && r.onlineSecurity == "No",
    { action := "security bundle offer", priority := "Medium",
      details := "Bundle online security at no extra cost",
      expected_impact := "churn rate -14%" }),
   (fun r => decide (r.tenure ≤ 6),
    { action := "onboarding care program", priority := "Medium",
      details := "Assign an onboarding specialist during the first months",
      expected_impact := "churn rate -10%" }),
   (fun _ => true,
    { action := "loyalty check-in", priority := "Low",
      details := "Schedule a periodic satisfaction call",
      expected_impact := "retention +5%" })]

/-- Modelled from the spec: `StrategyGenerator.generate` — evaluate the rule
table in order on the record and return at most three matching actions. -/
def generate (r : CustomerRecord) : List StrategyAction :=
  ((strategyRules.filter (fun rule => rule.1 r)).map (fun rule => rule.2)).take 3

/-- Modelled from the spec: the per-request prediction result. -/
structure PredictionResult where
  churn_probability : ℚ
  prediction : String
  risk_level : String
  risk_factors : List (String × String × ℚ)
  suggestions : List StrategyAction
  model_version : String
  confidence : ℚ

/-- Modelled from the spec: `predict` — validate the record through the
deriver, score it with the ensemble, then assemble the result with the
explanation and the generated strategy actions. -/
def predict (b : ModelBundle) (r : CustomerRecord) : Except FeatureError PredictionResult :=
  match derive b.deriverConfig r with
  | Except.error e => Except.error e
  | Except.ok v =>
    let p := ensembleScore b v
    Except.ok
      { churn_probability := p
        prediction := if 1 / 2 ≤ p then "Yes" else "No"
        risk_level := riskLevelOf p
        risk_factors := explain v
        suggestions := generate r
        model_version := b.version
        confidence := confidenceOf p }

/-! ## Statistical analyzer (modelled from the spec) -/

/-- Modelled from the spec: a population or test group too small for a
stable statistic. -/
structure InsufficientDataError where
  context : String
  sampleSize : ℕ
deriving DecidableEq

/-- Modelled from the spec: the minimum sample size below which the analyzer
refuses to produce a statistic. -/
def MIN_SAMPLE_SIZE : ℕ := 5

/-- Modelled from the spec: a reported segment with its churn rate as a
percentage rounded to one decimal. -/
structure Segment where
  label : String
  churn_rate : ℚ
deriving DecidableEq

/-- Modelled from the spec: the churn rate of one segment, as a percentage
to one decimal; a segment smaller than the minimum sample size raises
`InsufficientDataError` instead of fabricating a statistic. -/
def segmentChurnRate (label : String) (seg : List CustomerRecord) :
    Except InsufficientDataError Segment :=
  if seg.length < MIN_SAMPLE_SIZE then
    Except.error { context := label, sampleSize := seg.length }
  else
    Except.ok
      { label
        churn_rate :=
          (round ((((seg.filter (fun c => c.churn == "Yes")).length : ℚ) * 1000 /
            (seg.length : ℚ))) : ℤ) / 10 }

/-- Average rank of a value in a combined sample, with tied values sharing
the mean of their rank range. -/
def rankOf (all : List ℚ) (v : ℚ) : ℚ :=
  ((all.filter (fun u => decide (u < v))).length : ℚ) +
    (((all.filter (fun u => decide (u = v))).length : ℚ) + 1) / 2

/-- Modelled from the spec: the Mann-Whitney rank-sum statistic for two
groups (continuous variable split by churn), guarded by the minimum sample
size for either group. -/
def mannWhitneyTest (xs ys : List ℚ) : Except InsufficientDataError ℚ :=
  if xs.length < MIN_SAMPLE_SIZE ∨ ys.length < MIN_SAMPLE_SIZE then
    Except.error { context := "mann-whitney group", sampleSize := min xs.length ys.length }
  else
    let all := xs ++ ys
    Except.ok ((xs.map (rankOf all)).sum - (xs.length : ℚ) * ((xs.length : ℚ) + 1) / 2)

/-! ## Concrete sample data used to instantiate the theorems -/

/-- A well-formed CSV data row (integer-valued charges). -/
def goodCsvLine : String :=
  "0002-BBBB,Female,0,Yes,No,12,Yes,No,DSL,Yes,No,No,No,No,No,One year,No,Mailed check,29,348,No"

/-- The record `goodCsvLine` parses to. -/
def sampleRecord : CustomerRecord :=
  { customerId := "0002-BBBB", gender := "Female", seniorCitizen := 0,
    partner := "Yes", dependents := "No", tenure := 12, phoneService := "Yes",
    multipleLines := "No", internetService := "DSL", onlineSecurity := "Yes",
    onlineBackup := "No", deviceProtection := "No", techSupport := "No",
    streamingTV := "No", streamingMovies := "No", contract := "One year",
    paperlessBilling := "No", paymentMethod := "Mailed check",
    monthlyCharges := 29, totalCharges := 348, churn := "No" }

/-- A CSV data row carrying a negative tenure value. -/
def badCsvLine : String :=
  "0001-AAAA,Male,0,No,No,-5,Yes,No,DSL,No,No,No,No,No,No,Month-to-month,Yes,Mailed check,50,100,No"

/-- A CSV data row whose `TotalCharges` column is a single space. -/
def blankTotalLine : String :=
  "0003-CCCC,Male,1,No,No,3,Yes,No,Fiber optic,No,No,No,No,No,No,Month-to-month,Yes,Electronic check,75, ,Yes"

/-- The record `blankTotalLine` parses to (total charges stored as 0). -/
def blankTotalRecord : CustomerRecord :=
  { customerId := "0003-CCCC", gender := "Male", seniorCitizen := 1,
    partner := "No", dependents := "No", tenure := 3, phoneService := "Yes",
    multipleLines := "No", internetService := "Fiber optic",
    onlineSecurity := "No", onlineBackup := "No", deviceProtection := "No",
    techSupport := "No", streamingTV := "No", streamingMovies := "No",
    contract := "Month-to-month", paperlessBilling := "Yes",
    paymentMethod := "Electronic check", monthlyCharges := 75,
    totalCharges := 0, churn := "Yes" }

/-- A two-line CSV file: the header and one data row. -/
def demoCsvLines : List String :=
  ["customerID,gender,SeniorCitizen,Partner,Dependents,tenure,PhoneService,MultipleLines,InternetService,OnlineSecurity,OnlineBackup,DeviceProtection,TechSupport,StreamingTV,StreamingMovies,Contract,PaperlessBilling,PaymentMethod,MonthlyCharges,TotalCharges,Churn",
   goodCsvLine]

/-- A record whose `Contract` value is outside the fixed vocabulary. -/
def oovRecord : CustomerRecord :=
  { sampleRecord with contract := "Weekly" }

/-- A record whose `gender` value is outside the fixed vocabulary (every
other categorical field in vocabulary). -/
def oovGenderRecord : CustomerRecord :=
  { sampleRecord with gender := "Unknown" }

/-- A constant base classifier returning probability one half. -/
def halfClf : FeatureVector → ℚ := fun _ => 1 / 2

/-- The empty (logged-out) frontend authentication state. -/
def loggedOutState : AuthState :=
  { token := none, authHeader := none, user := none }

/-! ## Helper lemmas -/

/-- Unfolding lemma: a successful line parse pins every numeric field of the
record to the parse of its column. -/
theorem parseCustomerLine_fields (line : String) (c : CustomerRecord)
    (h : parseCustomerLine line = some c) :
    ∃ hlen : 20 < (splitCsvLine line).length,
      parseIntJava (splitCsvLine line)[2] = some c.seniorCitizen ∧
      parseIntJava (splitCsvLine line)[5] = some c.tenure ∧
      parseDoubleJava (splitCsvLine line)[18] = some c.monthlyCharges ∧
      parseTotalCharges (splitCsvLine line)[19] = some c.totalCharges := by
  unfold parseCustomerLine at h
  by_cases hl : 20 < (splitCsvLine line).length
  · rw [dif_pos hl] at h
    obtain ⟨sc, hsc, h⟩ := Option.bind_eq_some.mp h
    obtain ⟨tn, htn, h⟩ := Option.bind_eq_some.mp h
    obtain ⟨mc, hmc, h⟩ := Option.bind_eq_some.mp h
    obtain ⟨tc, htc, h⟩ := Option.bind_eq_some.mp h
    obtain rfl := Option.some.injEq _ _ ▸ h
    exact ⟨hl, hsc, htn, hmc, htc⟩
  · rw [dif_neg hl] at h
    exact absurd h (by simp)

/-- The ensemble score of the shipped bundle, in closed form. -/
theorem ensembleScore_mkChurnBundle (ca cb cc : FeatureVector → ℚ) (v : FeatureVector) :
    ensembleScore (mkChurnBundle ca cb cc) v = (2 * ca v + 1 * cb v + 1 * cc v) / 4 := by
  unfold ensembleScore mkChurnBundle
  simp [List.zipWith, List.sum_cons, List.sum_nil]
  ring

/-- Every action emitted by the strategy rule table carries one of the three
priorities. -/
theorem generate_priority_cases (r : CustomerRecord) (a : StrategyAction)
    (ha : a ∈ generate r) :
    a.priority = "High" ∨ a.priority = "Medium" ∨ a.priority = "Low" := by
  have h1 : a ∈ (strategyRules.filter (fun rule => rule.1 r)).map (fun rule => rule.2) :=
    List.take_subset 3 _ ha
  have h2 : a ∈ strategyRules.map (fun rule => rule.2) :=
    List.map_subset _ (List.filter_sublist _).subset h1
  have h3 : ∀ x ∈ strategyRules.map (fun rule => rule.2),
      x.priority = "High" ∨ x.priority = "Medium" ∨ x.priority = "Low" := by decide
  exact h3 a h2

/-- The deriver's vocabulary scan reports no violation exactly when every
categorical field is in vocabulary. -/
theorem firstVocabViolation_eq_none_iff (r : CustomerRecord) :
    firstVocabViolation r = none ↔ inVocabulary r := by
  unfold firstVocabViolation inVocabulary
  constructor
  · intro hv
    by_cases h1 : r.gender ∉ genderVocab
    · rw [if_pos h1] at hv; exact Option.noConfusion hv
    rw [if_neg h1] at hv
    by_cases h2 : r.partner ∉ yesNoVocab
    · rw [if_pos h2] at hv; exact Option.noConfusion hv
    rw [if_neg h2] at hv
    by_cases h3 : r.dependents ∉ yesNoVocab
    · rw [if_pos h3] at hv; exact Option.noConfusion hv
    rw [if_neg h3] at hv
    by_cases h4 : r.phoneService ∉ yesNoVocab
    · rw [if_pos h4] at hv; exact Option.noConfusion hv
    rw [if_neg h4] at hv
    by_cases h5 : r.multipleLines ∉ phoneDependentVocab
    · rw [if_pos h5] at hv; exact Option.noConfusion hv
    rw [if_neg h5] at hv
    by_cases h6 : r.internetService ∉ internetVocab
    · rw [if_pos h6] at hv; exact Option.noConfusion hv
    rw [if_neg h6] at hv
    by_cases h7 : r.onlineSecurity ∉ internetDependentVocab
    · rw [if_pos h7] at hv; exact Option.noConfusion hv
    rw [if_neg h7] at hv
    by_cases h8 : r.onlineBackup ∉ internetDependentVocab
    · rw [if_pos h8] at hv; exact Option.noConfusion hv
    rw [if_neg h8] at hv
    by_cases h9 : r.deviceProtection ∉ internetDependentVocab
    · rw [if_pos h9] at hv; exact Option.noConfusion hv
    rw [if_neg h9] at hv
    by_cases h10 : r.techSupport ∉ internetDependentVocab
    · rw [if_pos h10] at hv; exact Option.noConfusion hv
    rw [if_neg h10] at hv
    by_cases h11 : r.streamingTV ∉ internetDependentVocab
    · rw [if_pos h11] at hv; exact Option.noConfusion hv
    rw [if_neg h11] at hv
    by_cases h12 : r.streamingMovies ∉ internetDependentVocab
    · rw [if_pos h12] at hv; exact Option.noConfusion hv
    rw [if_neg h12] at hv
    by_cases h13 : r.contract ∉ contractVocab
    · rw [if_pos h13] at hv; exact Option.noConfusion hv
    rw [if_neg h13] at hv
    by_cases h14 : r.paperlessBilling ∉ yesNoVocab
    · rw [if_pos h14] at hv; exact Option.noConfusion hv
    rw [if_neg h14] at hv
    by_cases h15 : r.paymentMethod ∉ paymentVocab
    · rw [if_pos h15] at hv; exact Option.noConfusion hv
    exact ⟨not_not.mp h1, not_not.mp h2, not_not.mp h3, not_not.mp h4,
           not_not.mp h5, not_not.mp h6, not_not.mp h7, not_not.mp h8,
           not_not.mp h9, not_not.mp h10, not_not.mp h11, not_not.mp h12,
           not_not.mp h13, not_not.mp h14, not_not.mp h15⟩
  · rintro ⟨m1, m2, m3, m4, m5, m6, m7, m8, m9, m10, m11, m12, m13, m14, m15⟩
    rw [if_neg (not_not_intro m1), if_neg (not_not_intro m2),
        if_neg (not_not_intro m3), if_neg (not_not_intro m4),
        if_neg (not_not_intro m5), if_neg (not_not_intro m6),
        if_neg (not_not_intro m7), if_neg (not_not_intro m8),
        if_neg (not_not_intro m9), if_neg (not_not_intro m10),
        if_neg (not_not_intro m11), if_neg (not_not_intro m12),
        if_neg (not_not_intro m13), if_neg (not_not_intro m14),
        if_neg (not_not_intro m15)]

/-- A failing line makes the whole accumulation loop fail. -/
theorem parseAllLines_eq_none {lines : List String}
    (h : ∃ l ∈ lines, parseCustomerLine l = none) :
    parseAllLines lines = none := by
  induction lines with
  | nil => obtain ⟨l, hl, _⟩ := h; cases hl
  | cons x xs ih =>
    obtain ⟨l, hl, hn⟩ := h
    rcases List.mem_cons.mp hl with rfl | hmem
    · unfold parseAllLines; rw [hn]; rfl
    · unfold parseAllLines
      cases hx : parseCustomerLine x with
      | none => rfl
      | some c =>
        rw [ih ⟨l, hmem, hn⟩]
        rfl

/-! ## The claims -/

/-- C1: for every triple of base-classifier probabilities, the ensemble
score of the shipped bundle equals the weighted average
(2 p_a + 1 p_b + 1 p_c) / 4 (exactly, hence within tolerance 1e-9), and the
weights (2, 1, 1) are carried in the ModelBundle value, not hard-coded in
the scorer. -/
theorem ensemble_weighted_average (ca cb cc : FeatureVector → ℚ) (v : FeatureVector) :
    ensembleScore (mkChurnBundle ca cb cc) v = (2 * ca v + 1 * cb v + 1 * cc v) / 4 ∧
    |ensembleScore (mkChurnBundle ca cb cc) v - (2 * ca v + 1 * cb v + 1 * cc v) / 4|
      ≤ 1 / 1000000000 ∧
    (mkChurnBundle ca cb cc).weights = [2, 1, 1] := by
  have h := ensembleScore_mkChurnBundle ca cb cc v
  refine ⟨h, ?_, rfl⟩
  rw [h, sub_self, abs_zero]
  norm_num

/-- C5: prediction is deterministic — with the same bundle, identical
records yield identical results (the scorer, explainer and generator are
pure functions of the bundle and the record). -/
theorem predict_deterministic (b : ModelBundle) (r₁ r₂ : CustomerRecord)
    (h : r₁ = r₂) : predict b r₁ = predict b r₂ := by
  rw [h]

/-- Witness for C5 at a concrete bundle and record. -/
theorem predict_deterministic_witness :
    predict (mkChurnBundle halfClf halfClf halfClf) sampleRecord =
      predict (mkChurnBundle halfClf halfClf halfClf) sampleRecord :=
  predict_deterministic (mkChurnBundle halfClf halfClf halfClf) sampleRecord sampleRecord rfl

/-- C10: every login and logout transition establishes (hence preserves)
the authentication invariant: `isAuthenticated` holds exactly when a token
is present, and the axios Authorization header is `Bearer <token>` exactly
when a token is present and deleted otherwise; a failed login leaves the
state (and so the invariant) unchanged. -/
theorem auth_invariant_transitions (s : AuthState) (t : String) :
    authInvariant (login s t) ∧ authInvariant (logout s) ∧
    (authInvariant s → authInvariant (loginFailed s)) := by
  refine ⟨?_, ?_, fun h => h⟩
  · unfold login applyTokenEffect authInvariant isAuthenticated jsTruthy tokenPresent
    by_cases ht : t = "" <;> simp [ht]
  · unfold logout applyTokenEffect authInvariant isAuthenticated jsTruthy tokenPresent
    simp

/-- Witness for C10 at the concrete logged-out state and a concrete token. -/
theorem auth_invariant_transitions_witness :
    authInvariant (login loggedOutState "tok") ∧ authInvariant (logout loggedOutState) ∧
    (authInvariant loggedOutState → authInvariant (loginFailed loggedOutState)) :=
  auth_invariant_transitions loggedOutState "tok"

/-- C3: for every CSV row loaded into a record, a total-charges column that
is empty (or a lone space) after trimming is stored as exactly 0, and any
other column value is stored as its parsed numeric value. -/
theorem totalCharges_blank_zero (line : String) (c : CustomerRecord)
    (h : parseCustomerLine line = some c) :
    ∃ hlen : 20 < (splitCsvLine line).length,
      ((trimJava (splitCsvLine line)[19] = "" ∨ trimJava (splitCsvLine line)[19] = " ") →
        c.totalCharges = 0) ∧
      (trimJava (splitCsvLine line)[19] ≠ "" → trimJava (splitCsvLine line)[19] ≠ " " →
        parseDoubleJava (trimJava (splitCsvLine line)[19]) = some c.totalCharges) := by
  obtain ⟨hlen, _, _, _, htc⟩ := parseCustomerLine_fields line c h
  unfold parseTotalCharges at htc
  refine ⟨hlen, ?_, ?_⟩
  · intro hb
    rw [if_pos hb] at htc
    exact (Option.some.injEq _ _ ▸ htc).symm
  · intro h1 h2
    rw [if_neg (by tauto)] at htc
    exact htc

/-- Witness for C3 at a concrete row whose total-charges column is a space. -/
theorem totalCharges_blank_zero_witness :
    ∃ _hlen : 20 < (splitCsvLine blankTotalLine).length,
      ((trimJava (splitCsvLine blankTotalLine)[19] = "" ∨
        trimJava (splitCsvLine blankTotalLine)[19] = " ") →
        blankTotalRecord.totalCharges = 0) ∧
      (trimJava (splitCsvLine blankTotalLine)[19] ≠ "" →
        trimJava (splitCsvLine blankTotalLine)[19] ≠ " " →
        parseDoubleJava (trimJava (splitCsvLine blankTotalLine)[19]) =
          some blankTotalRecord.totalCharges) :=
  totalCharges_blank_zero blankTotalLine blankTotalRecord (by decide)

/-- C4 is refuted: the loader performs no range validation, so a CSV row
with a negative tenure is parsed and saved into the repository. -/
theorem negative_tenure_loaded :
    ∃ c, parseCustomerLine badCsvLine = some c ∧ c.tenure < 0 ∧
      loadData ["header", badCsvLine] [] = [c] := by
  refine ⟨{ customerId := "0001-AAAA", gender := "Male", seniorCitizen := 0,
            partner := "No", dependents := "No", tenure := -5,
            phoneService := "Yes", multipleLines := "No",
            internetService := "DSL", onlineSecurity := "No",
            onlineBackup := "No", deviceProtection := "No",
            techSupport := "No", streamingTV := "No", streamingMovies := "No",
            contract := "Month-to-month", paperlessBilling := "Yes",
            paymentMethod := "Mailed check", monthlyCharges := 50,
            totalCharges := 100, churn := "No" }, by decide, by decide, by decide⟩

/-- C4 (amended): record construction from a CSV row copies the parsed
numeric column values unchanged (with a blank total-charges column mapped
to 0), so the invariant tenure ≥ 0 ∧ monthly ≥ 0 ∧ total ≥ 0 holds for a
loaded record exactly when the parsed source values are non-negative — the
loading path preserves non-negativity but does not establish it. -/
theorem load_copies_parsed_values (line : String) (c : CustomerRecord)
    (h : parseCustomerLine line = some c) :
    ∃ hlen : 20 < (splitCsvLine line).length,
      (parseIntJava (splitCsvLine line)[5] = some c.tenure ∧
       parseDoubleJava (splitCsvLine line)[18] = some c.monthlyCharges ∧
       parseTotalCharges (splitCsvLine line)[19] = some c.totalCharges) ∧
      (∀ m tc : ℚ, ∀ tn : ℤ,
        parseIntJava (splitCsvLine line)[5] = some tn →
        parseDoubleJava (splitCsvLine line)[18] = some m →
        parseTotalCharges (splitCsvLine line)[19] = some tc →
        0 ≤ tn → 0 ≤ m → 0 ≤ tc →
        0 ≤ c.tenure ∧ 0 ≤ c.monthlyCharges ∧ 0 ≤ c.totalCharges) := by
  obtain ⟨hlen, _, h5, h18, h19⟩ := parseCustomerLine_fields line c h
  refine ⟨hlen, ⟨h5, h18, h19⟩, ?_⟩
  intro m tc tn htn hm htc h0t h0m h0tc
  rw [h5] at htn
  rw [h18] at hm
  rw [h19] at htc
  obtain rfl : c.tenure = tn := Option.some.injEq _ _ ▸ htn
  obtain rfl : c.monthlyCharges = m := Option.some.injEq _ _ ▸ hm
  obtain rfl : c.totalCharges = tc := Option.some.injEq _ _ ▸ htc
  exact ⟨h0t, h0m, h0tc⟩

/-- Witness for the amended C4 at a concrete well-formed row. -/
theorem load_copies_parsed_values_witness :
    ∃ _hlen : 20 < (splitCsvLine goodCsvLine).length,
      (parseIntJava (splitCsvLine goodCsvLine)[5] = some sampleRecord.tenure ∧
       parseDoubleJava (splitCsvLine goodCsvLine)[18] = some sampleRecord.monthlyCharges ∧
       parseTotalCharges (splitCsvLine goodCsvLine)[19] = some sampleRecord.totalCharges) ∧
      (∀ m tc : ℚ, ∀ tn : ℤ,
        parseIntJava (splitCsvLine goodCsvLine)[5] = some tn →
        parseDoubleJava (splitCsvLine goodCsvLine)[18] = some m →
        parseTotalCharges (splitCsvLine goodCsvLine)[19] = some tc →
        0 ≤ tn → 0 ≤ m → 0 ≤ tc →
        0 ≤ sampleRecord.tenure ∧ 0 ≤ sampleRecord.monthlyCharges ∧
          0 ≤ sampleRecord.totalCharges) :=
  load_copies_parsed_values goodCsvLine sampleRecord (by decide)

/-- C8: CSV loading is all-or-nothing — if any data line fails to parse,
the caught exception prevents `saveAll` and the repository is left exactly
as it was. -/
theorem loadData_all_or_nothing (csvLines : List String) (repo : List CustomerRecord)
    (h : ∃ l ∈ csvLines.drop 1, parseCustomerLine l = none) :
    loadData csvLines repo = repo := by
  unfold loadData
  by_cases hr : repo.length > 0
  · rw [if_pos hr]
  · rw [if_neg hr, parseAllLines_eq_none h]

/-- Witness for C8: a file with one malformed data row loads nothing. -/
theorem loadData_all_or_nothing_witness :
    loadData ["header", "bad"] [] = [] :=
  loadData_all_or_nothing ["header", "bad"] [] ⟨"bad", by decide, by decide⟩

/-- C9: `loadData` is idempotent — a non-empty repository is returned
untouched, and running the loader twice leaves the same repository state as
running it once. -/
theorem loadData_idempotent (csvLines : List String) (repo : List CustomerRecord) :
    (0 < repo.length → loadData csvLines repo = repo) ∧
    loadData csvLines (loadData csvLines repo) = loadData csvLines repo := by
  constructor
  · intro h
    unfold loadData
    rw [if_pos h]
  · by_cases hr : repo.length > 0
    · have h1 : loadData csvLines repo = repo := by unfold loadData; rw [if_pos hr]
      rw [h1]
      exact h1
    · obtain rfl : repo = [] := List.length_eq_zero.mp (by omega)
      cases hp : parseAllLines (csvLines.drop 1) with
      | none =>
        have h1 : loadData csvLines [] = [] := by
          unfold loadData; rw [if_neg hr, hp]
        rw [h1]
        exact h1
      | some cs =>
        have h1 : loadData csvLines [] = cs := by
          unfold loadData; rw [if_neg hr, hp]
        rw [h1]
        by_cases hc : cs.length > 0
        · unfold loadData; rw [if_pos hc]
        · obtain rfl : cs = [] := List.length_eq_zero.mp (by omega)
          unfold loadData; rw [if_neg hc, hp]

/-- Witness for C9 at a concrete file and a concrete non-empty repository. -/
theorem loadData_idempotent_witness :
    loadData demoCsvLines [sampleRecord] = [sampleRecord] ∧
    loadData demoCsvLines (loadData demoCsvLines [sampleRecord]) =
      loadData demoCsvLines [sampleRecord] :=
  ⟨(loadData_idempotent demoCsvLines [sampleRecord]).1 (by decide),
   (loadData_idempotent demoCsvLines [sampleRecord]).2⟩

/-- C6: `derive` rejects any record in which some required categorical
field holds a value outside its fixed known vocabulary with a
`FeatureError` (never a default-scored vector), and never fails on a
structurally valid record whose categorical values are all in vocabulary. -/
theorem derive_vocabulary_guard (cfg : DeriverConfig) (r : CustomerRecord) :
    (¬ inVocabulary r → ∃ e, derive cfg r = Except.error e) ∧
    (inVocabulary r → ∃ v, derive cfg r = Except.ok v) := by
  constructor
  · intro hov
    unfold derive
    cases hv : firstVocabViolation r with
    | some p => exact ⟨_, rfl⟩
    | none => exact absurd ((firstVocabViolation_eq_none_iff r).mp hv) hov
  · intro hin
    unfold derive
    rw [(firstVocabViolation_eq_none_iff r).mpr hin]
    exact ⟨_, rfl⟩

/-- Witness for C6: an out-of-vocabulary contract and an out-of-vocabulary
gender each raise the error; the fully in-vocabulary sample record derives
successfully. -/
theorem derive_vocabulary_guard_witness :
    (∃ e, derive defaultConfig oovRecord = Except.error e) ∧
    (∃ e, derive defaultConfig oovGenderRecord = Except.error e) ∧
    (∃ v, derive defaultConfig sampleRecord = Except.ok v) :=
  ⟨(derive_vocabulary_guard defaultConfig oovRecord).1 (by decide),
   (derive_vocabulary_guard defaultConfig oovGenderRecord).1 (by decide),
   (derive_vocabulary_guard defaultConfig sampleRecord).2 (by decide)⟩

/-- C7: the analyzer refuses to compute a statistic from an undersized
group — any segment, or either Mann-Whitney test group, smaller than the
minimum sample size of 5 yields `InsufficientDataError`. -/
theorem insufficient_data_guard :
    (∀ (label : String) (seg : List CustomerRecord), seg.length < MIN_SAMPLE_SIZE →
      ∃ e, segmentChurnRate label seg = Except.error e) ∧
    (∀ xs ys : List ℚ, xs.length < MIN_SAMPLE_SIZE ∨ ys.length < MIN_SAMPLE_SIZE →
      ∃ e, mannWhitneyTest xs ys = Except.error e) := by
  constructor
  · intro label seg h
    unfold segmentChurnRate
    rw [if_pos h]
    exact ⟨_, rfl⟩
  · intro xs ys h
    unfold mannWhitneyTest
    rw [if_pos h]
    exact ⟨_, rfl⟩

/-- Witness for C7: a concrete segment of three customers raises
`InsufficientDataError`. -/
theorem insufficient_data_guard_witness :
    ∃ e, segmentChurnRate "demo segment" [sampleRecord, sampleRecord, sampleRecord] =
      Except.error e :=
  insufficient_data_guard.1 "demo segment" [sampleRecord, sampleRecord, sampleRecord]
    (by decide)

/-- C2: for every valid record (and base classifiers emitting
probabilities), `predict` succeeds with a result whose `churn_probability`
field lies in [0, 1] and whose `suggestions` field is the ordered strategy
list, each element a StrategyAction record carrying action, priority,
details and expected impact, with the priority one of High/Medium/Low. -/
theorem predict_result_contract (ca cb cc : FeatureVector → ℚ) (r : CustomerRecord)
    (hca : ∀ v, 0 ≤ ca v ∧ ca v ≤ 1) (hcb : ∀ v, 0 ≤ cb v ∧ cb v ≤ 1)
    (hcc : ∀ v, 0 ≤ cc v ∧ cc v ≤ 1) (hr : validRecord r) :
    ∃ res, predict (mkChurnBundle ca cb cc) r = Except.ok res ∧
      0 ≤ res.churn_probability ∧ res.churn_probability ≤ 1 ∧
      res.suggestions = generate r ∧
      ∀ a ∈ res.suggestions,
        a.priority = "High" ∨ a.priority = "Medium" ∨ a.priority = "Low" := by
  unfold predict
  have hd : derive (mkChurnBundle ca cb cc).deriverConfig r =
      Except.ok (computeFeatures (mkChurnBundle ca cb cc).deriverConfig r) := by
    unfold derive
    rw [hr]
  rw [hd]
  refine ⟨_, rfl, ?_, ?_, rfl, fun a ha => generate_priority_cases r a ha⟩
  · rw [ensembleScore_mkChurnBundle]
    obtain ⟨ha0, _⟩ := hca (computeFeatures (mkChurnBundle ca cb cc).deriverConfig r)
    obtain ⟨hb0, _⟩ := hcb (computeFeatures (mkChurnBundle ca cb cc).deriverConfig r)
    obtain ⟨hc0, _⟩ := hcc (computeFeatures (mkChurnBundle ca cb cc).deriverConfig r)
    apply div_nonneg _ (by norm_num)
    linarith
  · rw [ensembleScore_mkChurnBundle]
    obtain ⟨_, ha1⟩ := hca (computeFeatures (mkChurnBundle ca cb cc).deriverConfig r)
    obtain ⟨_, hb1⟩ := hcb (computeFeatures (mkChurnBundle ca cb cc).deriverConfig r)
    obtain ⟨_, hc1⟩ := hcc (computeFeatures (mkChurnBundle ca cb cc).deriverConfig r)
    rw [div_le_one (by norm_num)]
    linarith

/-- Witness for C2 at the constant one-half classifiers and the sample
record. -/
theorem predict_result_contract_witness :
    ∃ res, predict (mkChurnBundle halfClf halfClf halfClf) sampleRecord = Except.ok res ∧
      0 ≤ res.churn_probability ∧ res.churn_probability ≤ 1 ∧
      res.suggestions = generate sampleRecord ∧
      ∀ a ∈ res.suggestions,
        a.priority = "High" ∨ a.priority = "Medium" ∨ a.priority = "Low" :=
  predict_result_contract halfClf halfClf halfClf sampleRecord
    (fun _ => by norm_num [halfClf]) (fun _ => by norm_num [halfClf])
    (fun _ => by norm_num [halfClf]) (by decide)

end ChurnGuard
